import Mathlib

/-!
Verification of the `characteristic` library (src/characteristic.py) against
its natural-language specification.

The development shallowly embeds the three synthesizers (`with_cmp`,
`with_repr`, `with_init`) and the `attributes` combinator:

* Instances of an augmented class become `PyObj α`: a concrete class name,
  the list of ancestor class names (so `isinstance` can be modelled), and a
  lookup from attribute name to value.
* The rich comparison methods generated by `with_cmp` return `CmpResult`,
  modelling the Python convention of either a boolean verdict or the
  `NotImplemented` sentinel.
* Python tuple comparison (the built-in lexicographic order used on
  `attrs_to_tuple` results) is embedded as the executable functions
  `tupleLt`, `tupleLe`, `tupleGt`, `tupleGe` on lists.
* `with_init` builds its constructor by pasting a Python source string and
  executing it; the string generation is embedded verbatim as `initSource`
  so the text the library actually produces can be inspected.
* `attributes` dispatches on `create_init is True`; the identity check is
  embedded as `isTrueObj` over a small universe `PyVal` of Python values.
-/

namespace Characteristic

/-- Result of a Python rich-comparison special method: a boolean verdict, or
the `NotImplemented` sentinel that tells the interpreter the operation is not
supported for this pair of operands. -/
inductive CmpResult where
  | bool (b : Bool)
  | notImplemented
deriving DecidableEq, Repr

/-- Model of an instance of a class augmented by the library: `cls` is the
name of its concrete runtime class, `ancestors` the names of the proper
superclasses of `cls`, and `attr` reads an attribute value (`getattr`). -/
structure PyObj (α : Type) where
  cls : String
  ancestors : List String
  attr : String → α

/-- `isinstance(obj, C)`: true when `C` is the concrete class of `obj` or one
of its ancestors. -/
def isinstance {α : Type} (obj : PyObj α) (c : String) : Bool :=
  obj.cls == c || obj.ancestors.contains c

/-- `attrs_to_tuple` from `with_cmp`: the tuple of the values of *attrs* read
off the object in order. -/
def attrs_to_tuple {α : Type} (attrs : List String) (obj : PyObj α) : List α :=
  attrs.map obj.attr

/-- Python tuple `<` (built-in lexicographic order): the first index where the
elements differ decides; a strict prefix is smaller. -/
def tupleLt {α : Type} [LinearOrder α] : List α → List α → Bool
  | _, [] => false
  | [], _ :: _ => true
  | x :: xs, y :: ys => if x < y then true else if y < x then false else tupleLt xs ys

/-- Python tuple `<=`. -/
def tupleLe {α : Type} [LinearOrder α] : List α → List α → Bool
  | [], _ => true
  | _ :: _, [] => false
  | x :: xs, y :: ys => if x < y then true else if y < x then false else tupleLe xs ys

/-- Python tuple `>`. -/
def tupleGt {α : Type} [LinearOrder α] : List α → List α → Bool
  | [], _ => false
  | _ :: _, [] => true
  | x :: xs, y :: ys => if y < x then true else if x < y then false else tupleGt xs ys

/-- Python tuple `>=`. -/
def tupleGe {α : Type} [LinearOrder α] : List α → List α → Bool
  | _, [] => true
  | [], _ :: _ => false
  | x :: xs, y :: ys => if y < x then true else if x < y then false else tupleGe xs ys

/-- `eq` from `with_cmp`: if `isinstance(other, self.__class__)` then compare
the attribute tuples for equality, else return `NotImplemented`. -/
def eq {α : Type} [DecidableEq α] (attrs : List String) (self other : PyObj α) : CmpResult :=
  if isinstance other self.cls then
    .bool (decide (attrs_to_tuple attrs self = attrs_to_tuple attrs other))
  else
    .notImplemented

/-- `ne` from `with_cmp`: calls `eq` and negates its verdict, passing the
`NotImplemented` sentinel through unchanged. -/
def ne {α : Type} [DecidableEq α] (attrs : List String) (self other : PyObj α) : CmpResult :=
  match eq attrs self other with
  | .notImplemented => .notImplemented
  | .bool b => .bool (!b)

/-- `lt` from `with_cmp`. -/
def lt {α : Type} [LinearOrder α] (attrs : List String) (self other : PyObj α) : CmpResult :=
  if isinstance other self.cls then
    .bool (tupleLt (attrs_to_tuple attrs self) (attrs_to_tuple attrs other))
  else
    .notImplemented

/-- `le` from `with_cmp`. -/
def le {α : Type} [LinearOrder α] (attrs : List String) (self other : PyObj α) : CmpResult :=
  if isinstance other self.cls then
    .bool (tupleLe (attrs_to_tuple attrs self) (attrs_to_tuple attrs other))
  else
    .notImplemented

/-- `gt` from `with_cmp`. -/
def gt {α : Type} [LinearOrder α] (attrs : List String) (self other : PyObj α) : CmpResult :=
  if isinstance other self.cls then
    .bool (tupleGt (attrs_to_tuple attrs self) (attrs_to_tuple attrs other))
  else
    .notImplemented

/-- `ge` from `with_cmp`. -/
def ge {α : Type} [LinearOrder α] (attrs : List String) (self other : PyObj α) : CmpResult :=
  if isinstance other self.cls then
    .bool (tupleGe (attrs_to_tuple attrs self) (attrs_to_tuple attrs other))
  else
    .notImplemented

/-- Model of CPython tuple hashing (the built-in `hash` applied to a tuple):
an order-sensitive xor-multiply fold of the element hashes, reduced modulo
the 64-bit word size. `h` is the element hash function. -/
def pyTupleHash {α : Type} (h : α → Nat) (xs : List α) : Nat :=
  xs.foldl (fun acc x => ((acc ^^^ h x) * 1000003) % 2 ^ 64) 3430008

/-- `hash_` from `with_cmp`: the hash of the attribute tuple. -/
def hash_ {α : Type} (attrs : List String) (h : α → Nat) (self : PyObj α) : Nat :=
  pyTupleHash h (attrs_to_tuple attrs self)

/-- Python `repr` of an integer. -/
def pyReprInt (n : Int) : String :=
  toString n

/-- `repr_` from `with_repr`: the string
`"<" ++ class name ++ "(" ++ comma separated attr=value pairs ++ ")>"`,
with the pairs in *attrs* order and each value rendered by `r`. -/
def repr_ {α : Type} (attrs : List String) (r : α → String) (self : PyObj α) : String :=
  "<" ++ self.cls ++ "(" ++
    String.intercalate ", " (attrs.map (fun a => a ++ "=" ++ r (self.attr a))) ++ ")>"

/-- Modelled from the spec: the representation format the spec claims,
`"TypeName(attr1=value1, attr2=value2, ...)"` with no surrounding angle
brackets.  Used only to compare the claimed format with `repr_`. -/
def reprClaimedFormat {α : Type} (attrs : List String) (r : α → String) (self : PyObj α) : String :=
  self.cls ++ "(" ++
    String.intercalate ", " (attrs.map (fun a => a ++ "=" ++ r (self.attr a))) ++ ")"

/-- One element of the generated parameter list in `with_init` (line 133 of
the source): `"{attr}=defaults[{attr}]".format(attr=attr) if attr in defaults
else "attr"`.  Note the else branch of the conditional expression is the
string literal `attr`, and the formatted default subscript has no quotes
around the key. -/
def argWithDefault (defaultKeys : List String) (attr : String) : String :=
  if defaultKeys.contains attr then attr ++ "=defaults[" ++ attr ++ "]" else "attr"

/-- The `args_with_defaults` template field of `with_init`: the generated
parameter list, comma separated. -/
def args_with_defaults (attrs : List String) (defaultKeys : List String) : String :=
  String.intercalate ", " (attrs.map (argWithDefault defaultKeys))

/-- The `args` template field of `with_init`: the argument list passed on to
`__original_init__`. -/
def argsField (attrs : List String) : String :=
  String.intercalate ", " attrs

/-- The `assignments` template field of `with_init`: the attribute assignment
statements, one per line at four-space indentation. -/
def assignments (attrs : List String) : String :=
  String.intercalate "\n    " (attrs.map (fun a => "self." ++ a ++ " = " ++ a))

/-- The full Python source string `with_init` builds and passes to `exec`
(`textwrap.dedent` is the identity here because the template already starts
at column zero).  `defaultKeys` are the keys of the `defaults` dict. -/
def initSource (attrs : List String) (defaultKeys : List String) : String :=
  "\ndef init(self, " ++ args_with_defaults attrs defaultKeys ++ "):\n    " ++
    assignments attrs ++ "\n    self.__original_init__(" ++ argsField attrs ++ ")\n"

/-- A small universe of Python values used as the `create_init` argument of
`attributes`. -/
inductive PyVal where
  | bool (b : Bool)
  | int (n : Int)
  | str (s : String)
deriving DecidableEq, Repr

/-- Python truthiness of a `PyVal` (`bool(v)`). -/
def truthy : PyVal → Bool
  | .bool b => b
  | .int n => n != 0
  | .str s => s != ""

/-- The identity test `v is True`: true exactly for the boolean object
`True`, false for every other value, truthy or not (in Python, `1 is True`
is false even though `1 == True`). -/
def isTrueObj : PyVal → Bool
  | .bool true => true
  | _ => false

/-- Class-level model of a type being augmented: which attribute list the
comparison methods were synthesized from (`none` when untouched), likewise
for the repr method, and the source text of the synthesized constructor
(`none` when the original constructor is still in place). -/
structure PyClassModel where
  cmpAttrs : Option (List String)
  reprAttrs : Option (List String)
  initCode : Option String
deriving DecidableEq, Repr

/-- Applying the `with_cmp(attrs)` decorator to a class. -/
def with_cmp_wrap (attrs : List String) (cl : PyClassModel) : PyClassModel :=
  { cl with cmpAttrs := some attrs }

/-- Applying the `with_repr(attrs)` decorator to a class. -/
def with_repr_wrap (attrs : List String) (cl : PyClassModel) : PyClassModel :=
  { cl with reprAttrs := some attrs }

/-- Applying the `with_init(attrs, defaults)` decorator to a class: the
constructor is replaced by the `exec`-generated function whose source is
`initSource attrs defaultKeys`. -/
def with_init_wrap (attrs : List String) (defaultKeys : List String)
    (cl : PyClassModel) : PyClassModel :=
  { cl with initCode := some (initSource attrs defaultKeys) }

/-- The `attributes` combinator: always applies `with_cmp` and `with_repr`;
applies `with_init` only when `create_init is True` (an identity check, not a
truthiness check). -/
def attributes (attrs : List String) (defaultKeys : List String)
    (create_init : PyVal) (cl : PyClassModel) : PyClassModel :=
  let cl2 := with_cmp_wrap attrs (with_repr_wrap attrs cl)
  if isTrueObj create_init then with_init_wrap attrs defaultKeys cl2 else cl2

/-- A concrete instance of a base class, used for subclass counterexamples:
every attribute reads 0. -/
def oBase : PyObj Int :=
  ⟨"Base", [], fun _ => 0⟩

/-- A concrete instance of a proper subclass of `Base`: every attribute
reads 1. -/
def oSub : PyObj Int :=
  ⟨"Sub", ["Base"], fun _ => 1⟩

/-- The worked example instance of the spec: class `Type`, `a = 5`,
`b = 0`. -/
def oType : PyObj Int :=
  ⟨"Type", [], fun s => if s = "a" then 5 else 0⟩

/-- Concrete instance of class `P` with attribute tuple `(1, 2)` on
attributes `u`, `v`. -/
def wXobj : PyObj Int :=
  ⟨"P", [], fun a => if a = "u" then 1 else 2⟩

/-- Concrete instance of class `P` with attribute tuple `(1, 3)`. -/
def wYobj : PyObj Int :=
  ⟨"P", [], fun a => if a = "u" then 1 else 3⟩

/-- Concrete instance of class `P` with attribute tuple `(1, 4)`. -/
def wZobj : PyObj Int :=
  ⟨"P", [], fun a => if a = "u" then 1 else 4⟩

/-- Heterogeneous-valued instance of class `H` (a bool and a string packed
into `PyVal`), equal attribute-wise to `hYobj`. -/
def hXobj : PyObj PyVal :=
  ⟨"H", [], fun a => if a = "flag" then .bool true else .str "hi"⟩

/-- Second heterogeneous-valued instance of class `H`, attribute-wise equal
to `hXobj`. -/
def hYobj : PyObj PyVal :=
  ⟨"H", [], fun a => if a = "flag" then .bool true else .str "hi"⟩

/-- An element hash for `PyVal` values, standing in for the Python builtin
`hash` on the witness values. -/
def pyValHash : PyVal → Nat
  | .bool b => if b then 1 else 0
  | .int n => n.natAbs
  | .str s => s.length

/-- A plain class descriptor before augmentation. -/
def plainClass : PyClassModel :=
  ⟨none, none, none⟩

/-! ### Helper lemmas about the embedded tuple comparison -/

theorem tupleLt_iff_lex {α : Type} [LinearOrder α] (xs ys : List α) :
    tupleLt xs ys = true ↔ List.Lex (· < ·) xs ys := by
  induction xs generalizing ys with
  | nil =>
    cases ys with
    | nil => simp [tupleLt, List.Lex.not_nil_right]
    | cons y ys => simpa [tupleLt] using List.Lex.nil
  | cons x xs ih =>
    cases ys with
    | nil => simp [tupleLt, List.Lex.not_nil_right]
    | cons y ys =>
      by_cases hxy : x < y
      · simpa [tupleLt, hxy] using List.Lex.rel hxy
      · by_cases hyx : y < x
        · simp only [tupleLt, if_neg hxy, if_pos hyx]
          constructor
          · intro h
            exact absurd h (by simp)
          · intro h
            cases h with
            | cons h => exact absurd hyx (lt_irrefl x)
            | rel h => exact absurd h hxy
        · have hxyeq : x = y := le_antisymm (le_of_not_lt hyx) (le_of_not_lt hxy)
          subst hxyeq
          simp only [tupleLt, if_neg hxy, if_neg hyx]
          rw [ih]
          exact (List.Lex.cons_iff).symm

theorem tupleLe_iff_lex_or_eq {α : Type} [LinearOrder α] (xs ys : List α) :
    tupleLe xs ys = true ↔ (List.Lex (· < ·) xs ys ∨ xs = ys) := by
  induction xs generalizing ys with
  | nil =>
    cases ys with
    | nil => simp [tupleLe]
    | cons y ys => simpa [tupleLe] using List.Lex.nil
  | cons x xs ih =>
    cases ys with
    | nil => simp [tupleLe, List.Lex.not_nil_right]
    | cons y ys =>
      by_cases hxy : x < y
      · simpa [tupleLe, hxy] using Or.inl (List.Lex.rel hxy)
      · by_cases hyx : y < x
        · simp only [tupleLe, if_neg hxy, if_pos hyx]
          constructor
          · intro h
            exact absurd h (by simp)
          · rintro (h | h)
            · cases h with
              | cons h => exact absurd hyx (lt_irrefl x)
              | rel h => exact absurd h hxy
            · cases h
              exact absurd hyx (lt_irrefl x)
        · have hxyeq : x = y := le_antisymm (le_of_not_lt hyx) (le_of_not_lt hxy)
          subst hxyeq
          simp only [tupleLe, if_neg hxy, if_neg hyx]
          rw [ih]
          simp [List.Lex.cons_iff]

theorem tupleGt_eq_tupleLt_swap {α : Type} [LinearOrder α] (xs ys : List α) :
    tupleGt xs ys = tupleLt ys xs := by
  induction xs generalizing ys with
  | nil => cases ys <;> simp [tupleGt, tupleLt]
  | cons x xs ih =>
    cases ys with
    | nil => simp [tupleGt, tupleLt]
    | cons y ys => simp only [tupleGt, tupleLt, ih]

theorem tupleGe_eq_tupleLe_swap {α : Type} [LinearOrder α] (xs ys : List α) :
    tupleGe xs ys = tupleLe ys xs := by
  induction xs generalizing ys with
  | nil => cases ys <;> simp [tupleGe, tupleLe]
  | cons x xs ih =>
    cases ys with
    | nil => simp [tupleGe, tupleLe]
    | cons y ys => simp only [tupleGe, tupleLe, ih]

theorem tupleLt_self_eq_false {α : Type} [LinearOrder α] (xs : List α) :
    tupleLt xs xs = false := by
  induction xs with
  | nil => rfl
  | cons x xs ih => simp [tupleLt, ih]

theorem tupleLe_self_eq_true {α : Type} [LinearOrder α] (xs : List α) :
    tupleLe xs xs = true := by
  induction xs with
  | nil => rfl
  | cons x xs ih => simp [tupleLe, ih]

theorem tupleLt_trans {α : Type} [LinearOrder α] :
    ∀ xs ys zs : List α, tupleLt xs ys = true → tupleLt ys zs = true →
      tupleLt xs zs = true := by
  intro xs
  induction xs with
  | nil =>
    intro ys zs h1 h2
    cases ys with
    | nil => simp [tupleLt] at h1
    | cons y ys =>
      cases zs with
      | nil => simp [tupleLt] at h2
      | cons z zs => simp [tupleLt]
  | cons x xs ih =>
    intro ys zs h1 h2
    cases ys with
    | nil => simp [tupleLt] at h1
    | cons y ys =>
      cases zs with
      | nil => simp [tupleLt] at h2
      | cons z zs =>
        simp only [tupleLt] at h1 h2 ⊢
        by_cases hxy : x < y
        · by_cases hyz : y < z
          · simp [lt_trans hxy hyz]
          · by_cases hzy : z < y
            · simp [hyz, hzy] at h2
            · have : y = z := le_antisymm (le_of_not_lt hzy) (le_of_not_lt hyz)
              subst this
              simp [hxy]
        · by_cases hyx : y < x
          · simp [hxy, hyx] at h1
          · have : x = y := le_antisymm (le_of_not_lt hyx) (le_of_not_lt hxy)
            subst this
            simp only [if_neg hxy, if_neg hyx] at h1
            by_cases hyz : x < z
            · simp [hyz]
            · by_cases hzy : z < x
              · simp [hyz, hzy] at h2
              · simp only [if_neg hyz, if_neg hzy] at h2 ⊢
                exact ih ys zs h1 h2

/-! ### Claim theorems -/

/-- C4: for every attribute list and every pair of instances of the same
concrete type, `eq` holds exactly when the attribute tuples (read in
AttributeSpec order) are equal, and `lt`, `le`, `gt`, `ge` are the built-in
lexicographic tuple order on those tuples: the first unequal element pair
decides, and tuple equality makes `eq`, `le`, `ge` true while `lt` and `gt`
are false. -/
theorem c4_cmp_lexicographic {α : Type} [LinearOrder α] [DecidableEq α]
    (attrs : List String) (x y : PyObj α) (hcls : x.cls = y.cls) :
    (eq attrs x y = .bool true ↔
      attrs_to_tuple attrs x = attrs_to_tuple attrs y) ∧
    (lt attrs x y = .bool true ↔
      List.Lex (· < ·) (attrs_to_tuple attrs x) (attrs_to_tuple attrs y)) ∧
    (le attrs x y = .bool true ↔
      (List.Lex (· < ·) (attrs_to_tuple attrs x) (attrs_to_tuple attrs y) ∨
        attrs_to_tuple attrs x = attrs_to_tuple attrs y)) ∧
    (gt attrs x y = .bool true ↔
      List.Lex (· < ·) (attrs_to_tuple attrs y) (attrs_to_tuple attrs x)) ∧
    (ge attrs x y = .bool true ↔
      (List.Lex (· < ·) (attrs_to_tuple attrs y) (attrs_to_tuple attrs x) ∨
        attrs_to_tuple attrs y = attrs_to_tuple attrs x)) ∧
    (attrs_to_tuple attrs x = attrs_to_tuple attrs y →
      eq attrs x y = .bool true ∧ le attrs x y = .bool true ∧
      ge attrs x y = .bool true ∧ lt attrs x y = .bool false ∧
      gt attrs x y = .bool false) := by
  have hinst : isinstance y x.cls = true := by
    simp [isinstance, hcls]
  refine ⟨?_, ?_, ?_, ?_, ?_, ?_⟩
  · simp [eq, hinst]
  · simp only [lt, hinst, if_true, CmpResult.bool.injEq]
    exact tupleLt_iff_lex _ _
  · simp only [le, hinst, if_true, CmpResult.bool.injEq]
    exact tupleLe_iff_lex_or_eq _ _
  · simp only [gt, hinst, if_true, CmpResult.bool.injEq, tupleGt_eq_tupleLt_swap]
    exact tupleLt_iff_lex _ _
  · simp only [ge, hinst, if_true, CmpResult.bool.injEq, tupleGe_eq_tupleLe_swap]
    exact tupleLe_iff_lex_or_eq _ _
  · intro h
    refine ⟨by simp [eq, hinst, h], ?_, ?_, ?_, ?_⟩
    · simp [le, hinst, h, tupleLe_self_eq_true]
    · simp [ge, hinst, tupleGe_eq_tupleLe_swap, h, tupleLe_self_eq_true]
    · simp [lt, hinst, h, tupleLt_self_eq_false]
    · simp [gt, hinst, tupleGt_eq_tupleLt_swap, h, tupleLt_self_eq_false]

theorem c4_cmp_lexicographic_witness :
    (eq ["u", "v"] wXobj wYobj = .bool true ↔
      attrs_to_tuple ["u", "v"] wXobj = attrs_to_tuple ["u", "v"] wYobj) ∧
    (lt ["u", "v"] wXobj wYobj = .bool true ↔
      List.Lex (· < ·) (attrs_to_tuple ["u", "v"] wXobj)
        (attrs_to_tuple ["u", "v"] wYobj)) ∧
    (le ["u", "v"] wXobj wYobj = .bool true ↔
      (List.Lex (· < ·) (attrs_to_tuple ["u", "v"] wXobj)
        (attrs_to_tuple ["u", "v"] wYobj) ∨
        attrs_to_tuple ["u", "v"] wXobj = attrs_to_tuple ["u", "v"] wYobj)) ∧
    (gt ["u", "v"] wXobj wYobj = .bool true ↔
      List.Lex (· < ·) (attrs_to_tuple ["u", "v"] wYobj)
        (attrs_to_tuple ["u", "v"] wXobj)) ∧
    (ge ["u", "v"] wXobj wYobj = .bool true ↔
      (List.Lex (· < ·) (attrs_to_tuple ["u", "v"] wYobj)
        (attrs_to_tuple ["u", "v"] wXobj) ∨
        attrs_to_tuple ["u", "v"] wYobj = attrs_to_tuple ["u", "v"] wXobj)) ∧
    (attrs_to_tuple ["u", "v"] wXobj = attrs_to_tuple ["u", "v"] wYobj →
      eq ["u", "v"] wXobj wYobj = .bool true ∧
      le ["u", "v"] wXobj wYobj = .bool true ∧
      ge ["u", "v"] wXobj wYobj = .bool true ∧
      lt ["u", "v"] wXobj wYobj = .bool false ∧
      gt ["u", "v"] wXobj wYobj = .bool false) :=
  c4_cmp_lexicographic ["u", "v"] wXobj wYobj rfl

/-- C5: for every attribute list and every pair of instances, if `eq`
returns the boolean true then the synthesized hashes agree: `hash_` hashes
the attribute tuple with an order-sensitive combiner, so equal tuples give
equal hashes, for any element value type and any element hash function. -/
theorem c5_hash_consistency {α : Type} [DecidableEq α] (attrs : List String)
    (h : α → Nat) (x y : PyObj α) (heq : eq attrs x y = .bool true) :
    hash_ attrs h x = hash_ attrs h y := by
  by_cases hi : isinstance y x.cls = true
  · have htup : attrs_to_tuple attrs x = attrs_to_tuple attrs y := by
      simpa [eq, hi] using heq
    simp [hash_, htup]
  · simp [eq, hi] at heq

theorem c5_hash_consistency_witness :
    hash_ ["flag", "msg"] pyValHash hXobj = hash_ ["flag", "msg"] pyValHash hYobj :=
  c5_hash_consistency ["flag", "msg"] pyValHash hXobj hYobj (by decide)

/-- C9: the synthesized strict order is transitive: for instances of the
same concrete type whose values carry a linear (hence transitive) order, if
`lt x y` and `lt y z` both return the boolean true then so does `lt x z`. -/
theorem c9_lt_trans {α : Type} [LinearOrder α] (attrs : List String)
    (x y z : PyObj α) (hxy : x.cls = y.cls) (hyz : y.cls = z.cls)
    (h1 : lt attrs x y = .bool true) (h2 : lt attrs y z = .bool true) :
    lt attrs x z = .bool true := by
  have hiy : isinstance y x.cls = true := by
    simp [isinstance, hxy]
  have hiz : isinstance z y.cls = true := by
    simp [isinstance, hyz]
  have hiz' : isinstance z x.cls = true := by
    simp [isinstance, hxy.trans hyz]
  rw [lt, if_pos hiy, CmpResult.bool.injEq] at h1
  rw [lt, if_pos hiz, CmpResult.bool.injEq] at h2
  rw [lt, if_pos hiz', CmpResult.bool.injEq]
  exact tupleLt_trans _ _ _ h1 h2

theorem c9_lt_trans_witness :
    lt ["u", "v"] wXobj wZobj = .bool true :=
  c9_lt_trans ["u", "v"] wXobj wYobj wZobj rfl rfl (by decide) (by decide)

/-- C2 counterexample: `oSub` has a different concrete runtime type than
`oBase` (it is an instance of a proper subclass), yet every relational
operation on the pair returns a boolean verdict, not the `NotImplemented`
sentinel — the guard is an `isinstance` check, not an exact type check. -/
theorem c2_counterexample :
    oSub.cls ≠ oBase.cls ∧ isinstance oSub oBase.cls = true ∧
    eq ["a"] oBase oSub = .bool false ∧
    ne ["a"] oBase oSub = .bool true ∧
    lt ["a"] oBase oSub = .bool true ∧
    le ["a"] oBase oSub = .bool true ∧
    gt ["a"] oBase oSub = .bool false ∧
    ge ["a"] oBase oSub = .bool false := by
  decide

/-- C2 (amended): every synthesized relational operation guards with
`isinstance(other, self.__class__)`: it returns the `NotImplemented`
sentinel exactly when the other operand is neither an instance of the same
concrete class nor of a subclass of it; instances of subclasses are
compared, not rejected. -/
theorem c2_amended_isinstance_guard {α : Type} [LinearOrder α] [DecidableEq α]
    (attrs : List String) (self other : PyObj α) :
    (eq attrs self other = .notImplemented ↔ isinstance other self.cls = false) ∧
    (ne attrs self other = .notImplemented ↔ isinstance other self.cls = false) ∧
    (lt attrs self other = .notImplemented ↔ isinstance other self.cls = false) ∧
    (le attrs self other = .notImplemented ↔ isinstance other self.cls = false) ∧
    (gt attrs self other = .notImplemented ↔ isinstance other self.cls = false) ∧
    (ge attrs self other = .notImplemented ↔ isinstance other self.cls = false) := by
  by_cases hi : isinstance other self.cls = true
  · simp [eq, ne, lt, le, gt, ge, hi]
  · simp only [Bool.not_eq_true] at hi
    simp [eq, ne, lt, le, gt, ge, hi]

/-- C7 counterexample: for operands of different concrete runtime types
(`oSub` is an instance of a subclass of the class of `oBase`), `ne` does
not return the `NotImplemented` sentinel: it returns the boolean negation
of `eq`. -/
theorem c7_counterexample :
    oSub.cls ≠ oBase.cls ∧
    ne ["b"] oBase oSub = .bool true ∧
    ne ["b"] oBase oSub ≠ .notImplemented := by
  decide

/-- C7 (amended): `ne` is derived from `eq`: it returns `NotImplemented`
exactly when `eq` does (namely when the other operand is not an instance of
the class of self), and whenever `eq` returns a boolean, `ne` returns its
negation — also when the operands have different concrete types but are
related by subclassing. -/
theorem c7_amended_ne_negates_eq {α : Type} [DecidableEq α]
    (attrs : List String) (self other : PyObj α) :
    (ne attrs self other = .notImplemented ↔
      eq attrs self other = .notImplemented) ∧
    (∀ b : Bool, eq attrs self other = .bool b →
      ne attrs self other = .bool (!b)) := by
  cases heq : eq attrs self other with
  | bool b =>
    constructor
    · simp [ne, heq]
    · intro b' hb
      rw [CmpResult.bool.injEq] at hb
      subst hb
      simp [ne, heq]
  | notImplemented =>
    constructor
    · simp [ne, heq]
    · intro b hb
      exact absurd hb (by simp)

theorem c7_amended_ne_negates_eq_witness :
    ne ["a"] oBase oBase = .bool false :=
  (c7_amended_ne_negates_eq ["a"] oBase oBase).2 true (by decide)

/-- C8 counterexample: the synthesized repr of the example instance (class
`Type`, a=5, b=0) is `<Type(a=5, b=0)>`, with surrounding angle brackets,
and therefore not the claimed exact string `Type(a=5, b=0)`. -/
theorem c8_counterexample :
    repr_ ["a", "b"] pyReprInt oType = "<Type(a=5, b=0)>" ∧
    repr_ ["a", "b"] pyReprInt oType ≠ "Type(a=5, b=0)" := by
  constructor
  · rfl
  · decide

/-- C8 (amended): the synthesized repr formatter produces exactly the
claimed `TypeName(attr1=value1, attr2=value2, ...)` string (attributes in
AttributeSpec order) wrapped in angle brackets, so the example instance
formats as `<Type(a=5, b=0)>`. -/
theorem c8_amended_repr_format {α : Type} (attrs : List String)
    (r : α → String) (self : PyObj α) :
    repr_ attrs r self = "<" ++ reprClaimedFormat attrs r self ++ ">" ∧
    repr_ ["a", "b"] pyReprInt oType = "<Type(a=5, b=0)>" := by
  constructor
  · have h : (")" ++ ">" : String) = ")>" := rfl
    simp only [repr_, reprClaimedFormat, String.append_assoc, h]
  · rfl

/-- C1 (code bug): for AttributeSpec [a, b] with default b=0, the source
text `with_init` generates and executes names the required parameter with
the literal string `attr` instead of `a`, and the default expression
subscripts the defaults dict with the bare name `b` (no quotes), which is
undefined in the exec globals.  No constructor accepting the keyword `a`
is ever produced, so `make(a=5)` cannot yield an instance with a=5, b=0. -/
theorem c1_initgen_broken :
    args_with_defaults ["a", "b"] ["b"] = "attr, b=defaults[b]" ∧
    initSource ["a", "b"] ["b"] =
      "\ndef init(self, attr, b=defaults[b]):\n    self.a = a\n    self.b = b\n    self.__original_init__(a, b)\n" := by
  constructor <;> rfl

/-- C3 (code bug): with two required attributes the generated constructor
source declares the parameter list `attr, attr` — a duplicate parameter
name, which is rejected when the text is executed — so no synthesized
constructor exists to assign the attributes and then run the captured base
initializer. -/
theorem c3_initgen_duplicate_param :
    args_with_defaults ["a", "b"] [] = "attr, attr" ∧
    initSource ["a", "b"] [] =
      "\ndef init(self, attr, attr):\n    self.a = a\n    self.b = b\n    self.__original_init__(a, b)\n" := by
  constructor <;> rfl

/-- C6 (code bug): a required attribute (here `a`, absent from the defaults
keys) is emitted into the generated parameter list as the literal string
`attr`, so the parameter the caller must supply is not named after the
omitted attribute; the failure `make()` produces can therefore never be an
error naming `a`. -/
theorem c6_required_param_misnamed :
    argWithDefault ["b"] "a" = "attr" ∧
    argWithDefault ["b"] "b" = "b=defaults[b]" ∧
    argWithDefault [] "a" = "attr" := by
  refine ⟨rfl, rfl, rfl⟩

/-- C10: the `attributes` combinator always applies the comparison and repr
synthesizers, but applies the constructor synthesizer only when
`create_init` is the boolean object `True` (an identity check): for every
value that fails the identity check — including truthy values such as the
integer 1 or a non-empty string — the constructor is left untouched. -/
theorem c10_create_init_identity_check :
    (∀ (attrs dks : List String) (v : PyVal) (cl : PyClassModel),
      (attributes attrs dks v cl).cmpAttrs = some attrs ∧
      (attributes attrs dks v cl).reprAttrs = some attrs) ∧
    (∀ (attrs dks : List String) (cl : PyClassModel),
      (attributes attrs dks (.bool true) cl).initCode = some (initSource attrs dks)) ∧
    (∀ (attrs dks : List String) (v : PyVal) (cl : PyClassModel),
      isTrueObj v = false → (attributes attrs dks v cl).initCode = cl.initCode) ∧
    (truthy (.int 1) = true ∧ isTrueObj (.int 1) = false) ∧
    (truthy (.str "yes") = true ∧ isTrueObj (.str "yes") = false) := by
  refine ⟨?_, ?_, ?_, by decide, by decide⟩
  · intro attrs dks v cl
    by_cases h : isTrueObj v = true <;>
      simp [attributes, with_cmp_wrap, with_repr_wrap, with_init_wrap, h]
  · intro attrs dks cl
    simp [attributes, with_cmp_wrap, with_repr_wrap, with_init_wrap, isTrueObj]
  · intro attrs dks v cl h
    simp [attributes, with_cmp_wrap, with_repr_wrap, h]

theorem c10_create_init_identity_check_witness :
    (attributes ["a"] [] (.int 1) plainClass).initCode = plainClass.initCode :=
  c10_create_init_identity_check.2.2.1 ["a"] [] (.int 1) plainClass (by decide)

end Characteristic
